import Mathlib

/-!
Shallow embedding of `vscode/src/azure/workspaceActions.ts`: the Azure
workspace discovery, refresh and job-submission orchestration of the Q#
VS Code extension, together with theorems about its specified behaviour.

JavaScript numbers are modelled with exact rational values (binary
floating-point rounding and overflow of the final parsed value are not
modelled); machine bytes are `Nat` values below 256; strings are Lean
`String` / `List Char`.
-/

namespace WorkspaceActions

/-! ## getRandomGuid (workspaceActions.ts lines 47-73) -/

/-- Lower-case hex digit for a nibble, as produced by JS `toString(16)`. -/
def hexDigit (n : Nat) : Char :=
  if n < 10 then Char.ofNat (48 + n) else Char.ofNat (87 + n)

/-- Two-digit lower-case hex rendering of one byte:
`byte.toString(16).padStart(2, "0")` for a byte value below 256. -/
def byteToHex (b : Nat) : List Char :=
  [hexDigit (b / 16), hexDigit (b % 16)]

/-- The `reduce` that concatenates the hex rendering of each byte. -/
def hexOfBytes (bytes : List Nat) : List Char :=
  bytes.foldl (fun acc b => acc ++ byteToHex b) []

/-- The two in-place updates
`bytes[6] = (bytes[6] & 0x0f) | 0x40` and
`bytes[8] = (bytes[8] & 0x3f) | 0x80`. -/
def applyUuidV4Layout (bytes : List Nat) : List Nat :=
  let withVersion := bytes.set 6 ((bytes.getD 6 0 &&& 0x0f) ||| 0x40)
  withVersion.set 8 ((withVersion.getD 8 0 &&& 0x3f) ||| 0x80)

/-- JS `String.prototype.substring(a, b)` on a character list (for `a ≤ b`). -/
def jsSubstring (l : List Char) (a b : Nat) : List Char :=
  (l.drop a).take (b - a)

/-- `getRandomGuid`, as a function of the 16 random bytes delivered by
`crypto.getRandomValues(new Uint8Array(16))`. -/
def getRandomGuid (bytes : List Nat) : String :=
  let hex := hexOfBytes (applyUuidV4Layout bytes)
  String.mk
    (jsSubstring hex 0 8 ++ '-' ::
     jsSubstring hex 8 12 ++ '-' ::
     jsSubstring hex 12 16 ++ '-' ::
     jsSubstring hex 16 20 ++ '-' ::
     jsSubstring hex 20 32)

/-! ## JS primitive string and number operations used by the embedded code -/

/-- Matches a literal character sequence at the start of `s`; on success
returns the remainder of `s`. -/
def stripLit : List Char → List Char → Option (List Char)
  | [], s => some s
  | _ :: _, [] => none
  | p :: ps, c :: cs => if c = p then stripLit ps cs else none

/-- JS whitespace accepted by `parseFloat` / `parseInt` (StrWhiteSpaceChar:
tab, LF, VT, FF, CR, space, NBSP, line/paragraph separator, BOM). -/
def isJsWhitespace (c : Char) : Bool :=
  c.toNat = 9 || c.toNat = 10 || c.toNat = 11 || c.toNat = 12 || c.toNat = 13 ||
  c.toNat = 32 || c.toNat = 160 || c.toNat = 8232 || c.toNat = 8233 || c.toNat = 65279

/-- Decimal ASCII digit test. -/
def isAsciiDigit (c : Char) : Bool :=
  48 ≤ c.toNat && c.toNat ≤ 57

/-- Value of one decimal ASCII digit. -/
def digitVal (c : Char) : Nat := c.toNat - 48

/-- Value of a decimal digit sequence. -/
def digitsVal (l : List Char) : Nat :=
  l.foldl (fun a c => 10 * a + digitVal c) 0

/-- Optional leading `+`/`-` sign; returns the sign and the remainder. -/
def parseSign : List Char → Int × List Char
  | '+' :: r => (1, r)
  | '-' :: r => (-1, r)
  | s => (1, s)

/-- A JS number as relevant here: `NaN`, the two infinities, or a finite
value. Finite values are modelled exactly as rationals; rounding to binary
floating point (and overflow of huge finite literals to `Infinity`) is not
modelled. -/
inductive JSNum where
  | nan : JSNum
  | posInf : JSNum
  | negInf : JSNum
  | num : Rat → JSNum
deriving DecidableEq

/-- JS `isNaN` on an already-converted number. -/
def jsIsNaN : JSNum → Bool
  | .nan => true
  | _ => false

/-- JS `Math.floor`: identity on `NaN` and the infinities. -/
def jsFloor : JSNum → JSNum
  | .nan => .nan
  | .posInf => .posInf
  | .negInf => .negInf
  | .num q => .num (↑⌊q⌋ : Rat)

/-- Integer power of ten as a rational, for the decimal exponent part. -/
def pow10 (e : Int) : Rat :=
  match e with
  | Int.ofNat n => (10 : Rat) ^ n
  | Int.negSucc n => 1 / (10 : Rat) ^ (n + 1)

/-- Syntactic result of scanning a `parseFloat` input: sign, whether the
scanned prefix was `Infinity`, whether a valid number prefix was found, the
integer-part value, fraction-part value and length, and the exponent. -/
structure FloatParse where
  sgn : Int
  infinity : Bool
  valid : Bool
  ip : Nat
  fp : Nat
  fpLen : Nat
  exp : Int
deriving DecidableEq

/-- The scanning phase of JS `parseFloat`: skip whitespace, optional sign,
then the longest prefix that is `Infinity` or a decimal literal
`digits [. digits] [(e|E) [sign] digits]` (an `e` not followed by a digit is
not consumed); invalid when no digit at all is found. -/
def parseFloatSyntax (s : String) : FloatParse :=
  let s1 := s.data.dropWhile isJsWhitespace
  let sgn := (parseSign s1).1
  let r := (parseSign s1).2
  if (stripLit "Infinity".data r).isSome then
    { sgn := sgn, infinity := true, valid := true, ip := 0, fp := 0, fpLen := 0, exp := 0 }
  else
    let ip := r.takeWhile isAsciiDigit
    let r2 := r.dropWhile isAsciiDigit
    let fp := match r2 with
      | '.' :: t => t.takeWhile isAsciiDigit
      | _ => []
    let r3 := match r2 with
      | '.' :: t => t.dropWhile isAsciiDigit
      | _ => r2
    if ip.isEmpty && fp.isEmpty then
      { sgn := sgn, infinity := false, valid := false, ip := 0, fp := 0, fpLen := 0, exp := 0 }
    else
      let e : Int := match r3 with
        | c :: t =>
          if c = 'e' || c = 'E' then
            let es := (parseSign t).1
            let ed := (parseSign t).2.takeWhile isAsciiDigit
            if ed.isEmpty then 0 else es * (digitsVal ed : Int)
          else 0
        | [] => 0
      { sgn := sgn, infinity := false, valid := true,
        ip := digitsVal ip, fp := digitsVal fp, fpLen := fp.length, exp := e }

/-- JS `parseFloat`: the scanned prefix interpreted as a number. Finite
results are exact rationals (see `JSNum`). -/
def jsParseFloat (s : String) : JSNum :=
  let p := parseFloatSyntax s
  if p.infinity = true then
    if p.sgn = 1 then JSNum.posInf else JSNum.negInf
  else if p.valid = true then
    JSNum.num ((p.sgn : Rat) * ((p.ip : Rat) + (p.fp : Rat) / (10 : Rat) ^ p.fpLen) * pow10 p.exp)
  else
    JSNum.nan

/-- Hexadecimal ASCII digit test. -/
def isHexDigitChar (c : Char) : Bool :=
  (48 ≤ c.toNat && c.toNat ≤ 57) || (97 ≤ c.toNat && c.toNat ≤ 102) ||
  (65 ≤ c.toNat && c.toNat ≤ 70)

/-- Value of one hexadecimal digit character. -/
def hexDigitVal (c : Char) : Nat :=
  if 48 ≤ c.toNat && c.toNat ≤ 57 then c.toNat - 48
  else if 97 ≤ c.toNat then c.toNat - 87
  else c.toNat - 55

/-- Value of a hexadecimal digit sequence. -/
def hexDigitsVal (l : List Char) : Nat :=
  l.foldl (fun a c => 16 * a + hexDigitVal c) 0

/-- JS `parseInt(s)` with no radix argument: skip whitespace, optional sign,
`0x`/`0X` switches to hexadecimal, otherwise the longest decimal digit
prefix; `NaN` (modelled `none`) when no digit is found. -/
def jsParseInt (s : String) : Option Int :=
  let s1 := s.data.dropWhile isJsWhitespace
  let sgn := (parseSign s1).1
  let r := (parseSign s1).2
  match r with
  | '0' :: x :: t =>
    if x = 'x' || x = 'X' then
      let hd := t.takeWhile isHexDigitChar
      if hd.isEmpty then none else some (sgn * (hexDigitsVal hd : Int))
    else
      some (sgn * (digitsVal (('0' :: x :: t).takeWhile isAsciiDigit) : Int))
  | _ =>
    let d := r.takeWhile isAsciiDigit
    if d.isEmpty then none else some (sgn * (digitsVal d : Int))

/-! ## validateShotsInput (workspaceActions.ts lines 379-384) -/

/-- The number-of-shots input validator: rejects (returns a message, so the
prompt re-asks) when `parseFloat` yields `NaN` or a value different from its
`Math.floor`. The `NaN !== NaN` case of the second test is subsumed by the
first disjunct, exactly as in the short-circuiting source expression. -/
def validateShotsInput (input : String) : Option String :=
  let result := jsParseFloat input
  if jsIsNaN result = true ∨ jsFloor result ≠ result then
    some "Number of shots must be an integer"
  else
    none

/-- The property the claim asserts the validator checks: the input parses as
a strictly positive integer. -/
def parsesAsPositiveInteger (s : String) : Prop :=
  ∃ n : Int, 0 < n ∧ jsParseFloat s = JSNum.num (n : Rat)

/-! ## Data model (treeView.ts `WorkspaceConnection` shape and the response
types consumed by workspaceActions.ts) -/

/-- A target entry of the provider-status response. -/
structure Target where
  id : String
  currentAvailability : String
deriving DecidableEq

/-- A provider entry of a `WorkspaceConnection`. -/
structure Provider where
  providerId : String
  currentAvailability : String
  targets : List Target
deriving DecidableEq

/-- A job record as returned by the data plane (the fields used here). -/
structure Job where
  id : String
  name : String
  status : String
  creationTime : String
deriving DecidableEq

/-- The `WorkspaceConnection` record built by discovery and mutated by
refresh. -/
structure WorkspaceConnection where
  id : String
  name : String
  endpointUri : String
  tenantId : String
  providers : List Provider
  jobs : List Job
deriving DecidableEq

/-- One entry of the provider-status response (`ResponseTypes.ProviderStatusList`). -/
structure ProviderStatus where
  id : String
  currentAvailability : String
  targets : List Target
deriving DecidableEq

/-- The provider-status response envelope. -/
structure ProviderStatusList where
  value : List ProviderStatus
deriving DecidableEq

/-- The job-list response envelope (`ResponseTypes.JobList`). -/
structure JobList where
  value : List Job
  nextLink : Option String
deriving DecidableEq

/-! ## queryWorkspace (refresh, workspaceActions.ts lines 289-342) -/

/-- Order induced by the JS sort comparator
`(a, b) => (a.creationTime < b.creationTime ? 1 : -1)`: `a` may stay before
`b` exactly when the comparator does not return a positive value, i.e. when
`¬ (a.creationTime < b.creationTime)`. -/
def jobBefore (a b : Job) : Prop := ¬ (a.creationTime < b.creationTime)

instance : DecidableRel jobBefore := fun a b =>
  inferInstanceAs (Decidable ¬ (a.creationTime < b.creationTime))

instance : IsTotal Job jobBefore :=
  ⟨fun a b => by
    rcases le_total a.creationTime b.creationTime with h | h
    · exact Or.inr (not_lt.mpr h)
    · exact Or.inl (not_lt.mpr h)⟩

instance : IsTrans Job jobBefore :=
  ⟨fun _ _ _ hab hbc =>
    not_lt.mpr (le_trans (not_lt.mp hbc) (not_lt.mp hab))⟩

/-- The result of `jobs.value.sort(comparator)`: a stable sort with respect
to `jobBefore`. A consistent-comparator JS `Array.prototype.sort` produces a
list ordered by the comparator; with pairwise-distinct `creationTime` keys
(the only situation the claims quantify over) that ordered permutation is
unique, so insertion sort models it exactly. -/
def sortJobsByCreationTimeDesc (l : List Job) : List Job :=
  l.insertionSort jobBefore

/-- The refresh operation `queryWorkspace`, as a pure function of the
workspace record and the two network responses. The exclusion predicates
`shouldExcludeProvider` / `shouldExcludeTarget` live in
`providerProperties.ts` and are taken as parameters. The two sequential
assignments to `workspace.providers` from the source are kept; the
`.map((job) => ({ ...job }))` copy is the explicit field-by-field rebuild. -/
def queryWorkspace (shouldExcludeProvider shouldExcludeTarget : String → Bool)
    (workspace : WorkspaceConnection) (providerStatus : ProviderStatusList)
    (jobs : JobList) : WorkspaceConnection :=
  let providers1 := providerStatus.value.map (fun provider =>
    { providerId := provider.id,
      currentAvailability := provider.currentAvailability,
      targets := provider.targets.filter
        (fun target => !(shouldExcludeTarget target.id)) : Provider })
  let providers2 := providers1.filter
    (fun provider => !(shouldExcludeProvider provider.providerId))
  let ws1 := { workspace with providers := providers2 }
  if jobs.value.length = 0 then ws1
  else
    { ws1 with
      jobs := (sortJobsByCreationTimeDesc jobs.value).map (fun job =>
        { id := job.id, name := job.name, status := job.status,
          creationTime := job.creationTime }) }

/-- Concrete fixtures used by the witness theorems. -/
def wsFixture : WorkspaceConnection :=
  { id := "i", name := "n", endpointUri := "e", tenantId := "t",
    providers := [], jobs := [] }

/-- A pre-existing job kept in the connection across an empty refresh. -/
def oldJob : Job :=
  { id := "old", name := "o", status := "Succeeded", creationTime := "2020-01-01" }

/-- A connection that already holds one job. -/
def wsWithJob : WorkspaceConnection :=
  { id := "i", name := "n", endpointUri := "e", tenantId := "t",
    providers := [], jobs := [oldJob] }

/-- An empty provider-status response. -/
def psEmpty : ProviderStatusList := { value := [] }

/-- An empty job-list response. -/
def jobsEmpty : JobList := { value := [], nextLink := none }

/-- A provider-status response with one excluded and one surviving provider,
the latter carrying one excluded and one surviving target. -/
def psFixture : ProviderStatusList :=
  { value :=
      [{ id := "bad", currentAvailability := "Available", targets := [] },
       { id := "good", currentAvailability := "Available",
         targets := [{ id := "t.bad", currentAvailability := "Available" },
                     { id := "t.good", currentAvailability := "Available" }] }] }

/-- A job arriving first but created earlier. -/
def jobA : Job :=
  { id := "j1", name := "a", status := "Succeeded", creationTime := "2024-01-01" }

/-- A job arriving second but created later. -/
def jobB : Job :=
  { id := "j2", name := "b", status := "Succeeded", creationTime := "2024-02-02" }

/-- A two-element job response arriving in ascending creation order. -/
def jobsAB : JobList := { value := [jobA, jobB], nextLink := none }

/-- Sample provider exclusion predicate. -/
def excludeBadProvider : String → Bool := fun s => s == "bad"

/-- Sample target exclusion predicate. -/
def excludeBadTarget : String → Bool := fun s => s == "t.bad"

/-! ## Endpoint normalization and id extraction (workspaceActions.ts lines
86-100 and 249-254) -/

/-- JS `String.prototype.replace` with a plain-string pattern: replaces the
first occurrence of `pat` (scanning left to right) by `rep`; the string is
returned unchanged when `pat` does not occur. -/
def jsReplaceFirst (pat rep : List Char) : List Char → List Char
  | [] =>
    match stripLit pat [] with
    | some r => rep ++ r
    | none => []
  | c :: cs =>
    match stripLit pat (c :: cs) with
    | some r => rep ++ r
    | none => c :: jsReplaceFirst pat rep cs

/-- JS `String.prototype.startsWith`. -/
def jsStartsWith (pre s : String) : Bool :=
  (stripLit pre.data s.data).isSome

/-- The endpoint normalization of `queryWorkspaces`:
`endpointUri?.replace("https://<name>.", "https://") || ""`. A missing
`endpointUri` yields `""`; on a string the `replace` result is itself, so the
trailing `|| ""` does not alter it. -/
def fixEndpointUri (name : String) (endpointUri : Option String) : String :=
  match endpointUri with
  | some u =>
    String.mk (jsReplaceFirst ("https://" ++ name ++ ".").data "https://".data u.data)
  | none => ""

/-- First-match semantics of the regex
`\/subscriptions\/(?<subscriptionId>[^/]+)\/resourceGroups\/(?<resourceGroup>[^/]+)`
at one start position: both captures are the maximal nonempty slash-free
runs (with the following literal starting with `/`, no shorter run can ever
match, so greedy matching without backtracking is exact). -/
def matchIdAt (s : List Char) : Option (List Char × List Char) :=
  match stripLit "/subscriptions/".data s with
  | none => none
  | some s1 =>
    let sub := s1.takeWhile (fun c => !(c == '/'))
    if sub.isEmpty then none
    else
      match stripLit "/resourceGroups/".data (s1.dropWhile (fun c => !(c == '/'))) with
      | none => none
      | some s2 =>
        let grp := s2.takeWhile (fun c => !(c == '/'))
        if grp.isEmpty then none else some (sub, grp)

/-- `String.prototype.match` for the id regex: the leftmost start position
where `matchIdAt` succeeds. -/
def searchIdMatch : List Char → Option (List Char × List Char)
  | [] => none
  | c :: cs =>
    match matchIdAt (c :: cs) with
    | some r => some r
    | none => searchIdMatch cs

/-- First-match semantics of the regex `https:\/\/(?<location>[^.]+)\.` at
one start position. -/
def matchLocAt (s : List Char) : Option (List Char) :=
  match stripLit "https://".data s with
  | none => none
  | some s1 =>
    let loc := s1.takeWhile (fun c => !(c == '.'))
    if loc.isEmpty then none
    else
      match s1.dropWhile (fun c => !(c == '.')) with
      | '.' :: _ => some loc
      | _ => none

/-- `String.prototype.match` for the endpoint regex: the leftmost start
position where `matchLocAt` succeeds. -/
def searchLocMatch : List Char → Option (List Char)
  | [] => none
  | c :: cs =>
    match matchLocAt (c :: cs) with
    | some r => some r
    | none => searchLocMatch cs

/-- The derived values computed inside `getPythonCodeForWorkspace`:
`subscriptionId`, `resourceGroup` and `location`; `none` models the
`return ""` taken when any of them is missing (a successful regex capture
`[^/]+`/`[^.]+` is never the empty string, so falsiness coincides with match
failure). -/
def getPythonCodeForWorkspaceVars (w : WorkspaceConnection) :
    Option (String × String × String) :=
  match searchIdMatch w.id.data, searchLocMatch w.endpointUri.data with
  | some (sub, grp), some loc => some (String.mk sub, String.mk grp, String.mk loc)
  | _, _ => none

/-! ## queryWorkspaces (discovery, workspaceActions.ts lines 124-276) -/

/-- The fields of a VS Code authentication session account used here. -/
structure AuthAccount where
  id : String
  type : String
deriving DecidableEq

/-- A bearer-token session returned by `getAuthSession`. -/
structure AuthSession where
  accessToken : String
  account : AuthAccount
deriving DecidableEq

/-- A tenant entry of the ARM tenant list. -/
structure Tenant where
  tenantId : String
  displayName : String
deriving DecidableEq

/-- A subscription entry of the ARM subscription list. -/
structure Subscription where
  subscriptionId : String
  displayName : String
deriving DecidableEq

/-- A provider entry of the control-plane workspace response. -/
structure RawProvider where
  providerId : String
  provisioningState : String
deriving DecidableEq

/-- The `properties` object of a workspace response. -/
structure WorkspaceProperties where
  endpointUri : Option String
  providers : List RawProvider
deriving DecidableEq

/-- A workspace entry of the control-plane workspace list. -/
structure WorkspaceResponse where
  id : String
  name : String
  properties : WorkspaceProperties
deriving DecidableEq

/-- The tenant-list response envelope. -/
structure TenantList where
  value : List Tenant
deriving DecidableEq

/-- The subscription-list response envelope. -/
structure SubscriptionList where
  value : List Subscription
deriving DecidableEq

/-- The workspace-list response envelope. -/
structure WorkspaceList where
  value : List WorkspaceResponse
deriving DecidableEq

/-- The provider mapping of discovery (workspaceActions.ts lines 261-268):
availability is `"Available"` exactly for `provisioningState === "Succeeded"`,
and `targets` starts empty, to be populated by a later refresh. -/
def mkDiscoveryProvider (provider : RawProvider) : Provider :=
  { providerId := provider.providerId,
    currentAvailability :=
      if provider.provisioningState = "Succeeded" then "Available" else "Unavailable",
    targets := [] }

/-- The `WorkspaceConnection` result object built at the end of discovery. -/
def buildConnection (tenantId : String) (workspace : WorkspaceResponse) :
    WorkspaceConnection :=
  { id := workspace.id,
    name := workspace.name,
    endpointUri := fixEndpointUri workspace.name workspace.properties.endpointUri,
    tenantId := tenantId,
    providers := workspace.properties.providers.map mkDiscoveryProvider,
    jobs := [] }

/-- The environment of one discovery run: the two authentication outcomes,
the three list responses, and the three quick-pick capabilities
(`vscode.window.showQuickPick` returns one of the offered items, or nothing
when the user dismisses the picker). -/
structure DiscoveryEnv where
  firstAuth : Option AuthSession
  secondAuth : Option AuthSession
  tenants : TenantList
  subs : SubscriptionList
  workspaces : WorkspaceList
  pickTenant : List Tenant → Option Tenant
  pickSubscription : List Subscription → Option Subscription
  pickWorkspace : List WorkspaceResponse → Option WorkspaceResponse

/-- The `Quick-pick if more than one` pattern: the first item is used
directly for a singleton list, otherwise the picker runs once. Returns the
chosen item (or `none` on cancellation) and the number of picker
invocations. -/
def pickIfMany {α : Type} (first : α) (rest : List α)
    (pick : List α → Option α) : Option α × Nat :=
  if rest.isEmpty then (some first, 0)
  else
    match pick (first :: rest) with
    | none => (none, 1)
    | some c => (some c, 1)

/-- The discovery operation `queryWorkspaces` as a pure function of its
environment: walks tenants, subscriptions and workspaces, re-authenticates
against the chosen tenant unless the first session is an `aad` account
already scoped to it, and builds the connection. The second component counts
quick-pick invocations; `none` results model the `return`s for
authentication failure, empty levels and user cancellation. This function is
the part after tenant authentication: subscriptions, workspaces, and the
final connection. -/
def queryWorkspacesAfterAuth (env : DiscoveryEnv) (tenantId : String)
    (picksSoFar : Nat) : Option WorkspaceConnection × Nat :=
  match env.subs.value with
  | [] => (none, picksSoFar)
  | s0 :: ss =>
    match pickIfMany s0 ss env.pickSubscription with
    | (none, n2) => (none, picksSoFar + n2)
    | (some _sChoice, n2) =>
      match env.workspaces.value with
      | [] => (none, picksSoFar + n2)
      | w0 :: wss =>
        match pickIfMany w0 wss env.pickWorkspace with
        | (none, n3) => (none, picksSoFar + n2 + n3)
        | (some workspace, n3) =>
          (some (buildConnection tenantId workspace), picksSoFar + n2 + n3)

/-- The discovery operation `queryWorkspaces`: first authentication, tenant
walk and tenant-scoped re-authentication (skipped only for an `aad` account
already scoped to the chosen tenant), then `queryWorkspacesAfterAuth`. -/
def queryWorkspaces (env : DiscoveryEnv) : Option WorkspaceConnection × Nat :=
  match env.firstAuth with
  | none => (none, 0)
  | some firstAuth =>
    match env.tenants.value with
    | [] => (none, 0)
    | t0 :: ts =>
      match pickIfMany t0 ts env.pickTenant with
      | (none, n1) => (none, n1)
      | (some tChoice, n1) =>
        let tenantId := tChoice.tenantId
        let tenantAuth : Option AuthSession :=
          if firstAuth.account.type = "aad" ∧
              jsStartsWith tenantId firstAuth.account.id = true then
            some firstAuth
          else env.secondAuth
        match tenantAuth with
        | none => (none, n1)
        | some _tenantAuth => queryWorkspacesAfterAuth env tenantId n1

/-- A single-tenant, single-subscription, single-workspace discovery
environment whose pickers are never consulted. -/
def tenant1 : Tenant := { tenantId := "tid1", displayName := "T" }

/-- The single subscription of the witness environment. -/
def sub1 : Subscription := { subscriptionId := "sub1", displayName := "S" }

/-- The single workspace of the witness environment. -/
def wsResp1 : WorkspaceResponse :=
  { id := "/subscriptions/sub1/resourceGroups/rg/providers/Microsoft.Quantum/Workspaces/ws1",
    name := "ws1",
    properties :=
      { endpointUri := some "https://ws1.westus.quantum.azure.com",
        providers := [{ providerId := "prov", provisioningState := "Succeeded" },
                      { providerId := "prov2", provisioningState := "Deleting" }] } }

/-- The witness discovery environment. -/
def envSingle : DiscoveryEnv :=
  { firstAuth := some { accessToken := "tok", account := { id := "tid1/acct", type := "aad" } },
    secondAuth := none,
    tenants := { value := [tenant1] },
    subs := { value := [sub1] },
    workspaces := { value := [wsResp1] },
    pickTenant := fun _ => none,
    pickSubscription := fun _ => none,
    pickWorkspace := fun _ => none }

/-! ## submitJob (workspaceActions.ts lines 368-455) -/

/-- Characters the JS `decodeURI` leaves percent-encoded. -/
def uriReserved (c : Char) : Bool :=
  c == ';' || c == '/' || c == '?' || c == ':' || c == '@' || c == '&' ||
  c == '=' || c == '+' || c == '$' || c == ',' || c == '#'

/-- Value of one hexadecimal digit character, `none` when not a hex digit. -/
def hexCharVal (c : Char) : Option Nat :=
  if 48 ≤ c.toNat && c.toNat ≤ 57 then some (c.toNat - 48)
  else if 65 ≤ c.toNat && c.toNat ≤ 70 then some (c.toNat - 55)
  else if 97 ≤ c.toNat && c.toNat ≤ 102 then some (c.toNat - 87)
  else none

/-- JS `decodeURI` for single-byte escapes: every `%XY` hex escape is
decoded except when the decoded character is in the reserved set, which
stays encoded. Multi-byte UTF-8 escape sequences are not modelled;
a malformed escape (which would throw a `URIError`) is left intact. -/
def jsDecodeURI : List Char → List Char
  | [] => []
  | '%' :: a :: b :: rest =>
    match hexCharVal a, hexCharVal b with
    | some ha, some hb =>
      if uriReserved (Char.ofNat (16 * ha + hb)) then
        '%' :: a :: b :: jsDecodeURI rest
      else
        Char.ofNat (16 * ha + hb) :: jsDecodeURI rest
    | _, _ => '%' :: a :: b :: jsDecodeURI rest
  | c :: rest => c :: jsDecodeURI rest

/-- The scheme of `vscode.Uri.parse`: the characters before the first `:`. -/
def vsUriScheme (s : List Char) : List Char :=
  s.takeWhile (fun c => !(c == ':'))

/-- The authority of `vscode.Uri.parse` for a well-formed
`scheme://authority/...` URI: the characters after `://` up to the next
`/`, `?` or `#`. -/
def vsUriAuthority (s : List Char) : List Char :=
  match stripLit "://".data (s.dropWhile (fun c => !(c == ':'))) with
  | some r => r.takeWhile (fun c => !(c == '/' || c == '?' || c == '#'))
  | none => []

/-- `sasUri.substring(sasUri.indexOf("?") + 1)`: the raw SAS token query
string (the whole string when no `?` occurs, since `indexOf` yields `-1`). -/
def sasTokenRawOf (s : List Char) : List Char :=
  match s.findIdx? (fun c => c == '?') with
  | some i => s.drop (i + 1)
  | none => s

/-- The job description PUT by `submitJob` (the `inputParams` block is
inlined as `entryPoint`, `arguments`, `count`, `shots`). `name` is the raw
input-box result, which can be missing; `count`/`shots` are `parseInt`
results, `none` modelling `NaN`. -/
structure JobPayload where
  id : String
  name : Option String
  providerId : String
  target : String
  itemType : String
  containerUri : String
  inputDataUri : String
  inputDataFormat : String
  outputDataFormat : String
  entryPoint : String
  arguments : List String
  count : Option Int
  shots : Option Int
deriving DecidableEq

/-- One network round-trip performed by `submitJob`, in order: the SAS grant
POST (body `{containerName}` rendered as its container name), the container
PUT, the `inputData` block-blob PUT, and the job PUT carrying the
payload. -/
inductive NetworkCall where
  | sasRequest (containerName : String)
  | containerCreate (uri : String)
  | blobUpload (uri : String) (blobType : String)
  | jobPut (payload : JobPayload)
deriving DecidableEq

/-- The interactive/random environment of one `submitJob` run: the generated
GUID, the two input-box outcomes (`none` models Escape), and the `sasUri`
field of the SAS-grant response. -/
structure SubmitEnv where
  randomGuid : String
  jobNameBox : Option String
  shotsBox : Option String
  sasUri : String
deriving DecidableEq

/-- JS `x || d` on a string-or-undefined value: the default replaces
`undefined` and the empty string (both falsy); the result is always a
string, wrapped in `some`. -/
def jsOrDefault (v : Option String) (d : String) : Option String :=
  match v with
  | none => some d
  | some "" => some d
  | some s => some s

/-- `submitJob` as a pure function of its environment: returns the job id
(`none` for an abort) and the list of network calls performed, in order.
The job-name box result is never checked; the shots box result is defaulted
with `|| "100"` before the `=== undefined` abort check, which therefore
never fires. -/
def submitJob (env : SubmitEnv) (providerId target : String) :
    Option String × List NetworkCall :=
  let containerName := env.randomGuid
  let jobName := env.jobNameBox
  let numberOfShots : Option String := jsOrDefault env.shotsBox "100"
  if numberOfShots = none then (none, [])
  else
    let shotsStr := numberOfShots.getD "100"
    let sasUri := String.mk (jsDecodeURI env.sasUri.data)
    let storageAccount :=
      String.mk (vsUriScheme sasUri.data) ++ "://" ++ String.mk (vsUriAuthority sasUri.data)
    let sasTokenRaw := String.mk (sasTokenRawOf env.sasUri.data)
    let containerPutUri :=
      storageAccount ++ "/" ++ containerName ++ "?restype=container&" ++ sasTokenRaw
    let inputDataUri :=
      storageAccount ++ "/" ++ containerName ++ "/inputData?" ++ sasTokenRaw
    let payload : JobPayload :=
      { id := containerName,
        name := jobName,
        providerId := providerId,
        target := target,
        itemType := "Job",
        containerUri := env.sasUri,
        inputDataUri := storageAccount ++ "/" ++ containerName ++ "/inputData",
        inputDataFormat := "qir.v1",
        outputDataFormat := "microsoft.quantum-results.v1",
        entryPoint := "ENTRYPOINT__main",
        arguments := [],
        count := jsParseInt shotsStr,
        shots := jsParseInt shotsStr }
    (some containerName,
      [NetworkCall.sasRequest containerName,
       NetworkCall.containerCreate containerPutUri,
       NetworkCall.blobUpload inputDataUri "BlockBlob",
       NetworkCall.jobPut payload])

/-- The payloads of the job PUT calls within a call list. -/
def jobPutPayloads (calls : List NetworkCall) : List JobPayload :=
  calls.filterMap (fun c =>
    match c with
    | NetworkCall.jobPut p => some p
    | _ => none)

/-- A `submitJob` environment in which the user pressed Escape at both the
job-name and the number-of-shots prompt. -/
def envCancelled : SubmitEnv :=
  { randomGuid := "g", jobNameBox := none, shotsBox := none,
    sasUri := "https://acct.blob.core.windows.net/c?sv=1&sig=2" }

/-- A `submitJob` environment in which only the shots prompt was
dismissed. -/
def envShotsEsc : SubmitEnv :=
  { randomGuid := "gg", jobNameBox := some "myjob", shotsBox := none,
    sasUri := "https://a.b/c?x=1" }

/-! ## Theorems -/

theorem masked6_lt (b : Nat) : b &&& 0x0f < 16 :=
  Nat.lt_succ_of_le (Nat.and_le_right)

theorem masked8_lt (b : Nat) : b &&& 0x3f < 64 :=
  Nat.lt_succ_of_le (Nat.and_le_right)

theorem or64_shr (x : Nat) (hx : x < 16) : (x ||| 0x40) >>> 4 = 4 := by
  interval_cases x <;> rfl

theorem or128_shr (x : Nat) (hx : x < 64) : (x ||| 0x80) >>> 6 = 2 := by
  interval_cases x <;> rfl

theorem hexDigit_or64 (x : Nat) (hx : x < 16) :
    hexDigit ((x ||| 0x40) / 16) = '4' := by
  interval_cases x <;> rfl

theorem hexDigit_or128_mem (x : Nat) (hx : x < 64) :
    hexDigit ((x ||| 0x80) / 16) ∈ (['8', '9', 'a', 'b'] : List Char) := by
  interval_cases x <;> decide

set_option maxHeartbeats 1600000 in
/-- C8: every identifier returned by `getRandomGuid` matches the UUID v4 bit
layout: the top 4 bits of octet 6 equal 4 (so the hex character at string
index 14 is `'4'`), and the top 2 bits of octet 8 equal binary 10 (so the hex
character at string index 19 is one of `8`, `9`, `a`, `b`), for any 16 input
bytes. -/
theorem getRandomGuid_uuid_v4_layout
    (b0 b1 b2 b3 b4 b5 b6 b7 b8 b9 b10 b11 b12 b13 b14 b15 : Nat) :
    ((applyUuidV4Layout
        [b0, b1, b2, b3, b4, b5, b6, b7, b8, b9, b10, b11, b12, b13, b14, b15]).getD 6 0) >>> 4
        = 4 ∧
    ((applyUuidV4Layout
        [b0, b1, b2, b3, b4, b5, b6, b7, b8, b9, b10, b11, b12, b13, b14, b15]).getD 8 0) >>> 6
        = 2 ∧
    (getRandomGuid
        [b0, b1, b2, b3, b4, b5, b6, b7, b8, b9, b10, b11, b12, b13, b14, b15]).data.getD 14 ' '
        = '4' ∧
    (getRandomGuid
        [b0, b1, b2, b3, b4, b5, b6, b7, b8, b9, b10, b11, b12, b13, b14, b15]).data.getD 19 ' '
        ∈ (['8', '9', 'a', 'b'] : List Char) := by
  have hA : applyUuidV4Layout
      [b0, b1, b2, b3, b4, b5, b6, b7, b8, b9, b10, b11, b12, b13, b14, b15] =
      [b0, b1, b2, b3, b4, b5, (b6 &&& 0x0f) ||| 0x40, b7, (b8 &&& 0x3f) ||| 0x80,
       b9, b10, b11, b12, b13, b14, b15] := rfl
  have hH : hexOfBytes
      [b0, b1, b2, b3, b4, b5, (b6 &&& 0x0f) ||| 0x40, b7, (b8 &&& 0x3f) ||| 0x80,
       b9, b10, b11, b12, b13, b14, b15] =
      [hexDigit (b0 / 16), hexDigit (b0 % 16), hexDigit (b1 / 16), hexDigit (b1 % 16),
       hexDigit (b2 / 16), hexDigit (b2 % 16), hexDigit (b3 / 16), hexDigit (b3 % 16),
       hexDigit (b4 / 16), hexDigit (b4 % 16), hexDigit (b5 / 16), hexDigit (b5 % 16),
       hexDigit (((b6 &&& 0x0f) ||| 0x40) / 16), hexDigit (((b6 &&& 0x0f) ||| 0x40) % 16),
       hexDigit (b7 / 16), hexDigit (b7 % 16),
       hexDigit (((b8 &&& 0x3f) ||| 0x80) / 16), hexDigit (((b8 &&& 0x3f) ||| 0x80) % 16),
       hexDigit (b9 / 16), hexDigit (b9 % 16),
       hexDigit (b10 / 16), hexDigit (b10 % 16), hexDigit (b11 / 16), hexDigit (b11 % 16),
       hexDigit (b12 / 16), hexDigit (b12 % 16), hexDigit (b13 / 16), hexDigit (b13 % 16),
       hexDigit (b14 / 16), hexDigit (b14 % 16), hexDigit (b15 / 16), hexDigit (b15 % 16)] :=
    rfl
  have hG : getRandomGuid
      [b0, b1, b2, b3, b4, b5, b6, b7, b8, b9, b10, b11, b12, b13, b14, b15] =
      String.mk
      [hexDigit (b0 / 16), hexDigit (b0 % 16), hexDigit (b1 / 16), hexDigit (b1 % 16),
       hexDigit (b2 / 16), hexDigit (b2 % 16), hexDigit (b3 / 16), hexDigit (b3 % 16), '-',
       hexDigit (b4 / 16), hexDigit (b4 % 16), hexDigit (b5 / 16), hexDigit (b5 % 16), '-',
       hexDigit (((b6 &&& 0x0f) ||| 0x40) / 16), hexDigit (((b6 &&& 0x0f) ||| 0x40) % 16),
       hexDigit (b7 / 16), hexDigit (b7 % 16), '-',
       hexDigit (((b8 &&& 0x3f) ||| 0x80) / 16), hexDigit (((b8 &&& 0x3f) ||| 0x80) % 16),
       hexDigit (b9 / 16), hexDigit (b9 % 16), '-',
       hexDigit (b10 / 16), hexDigit (b10 % 16), hexDigit (b11 / 16), hexDigit (b11 % 16),
       hexDigit (b12 / 16), hexDigit (b12 % 16), hexDigit (b13 / 16), hexDigit (b13 % 16),
       hexDigit (b14 / 16), hexDigit (b14 % 16), hexDigit (b15 / 16), hexDigit (b15 % 16)] := by
    simp only [getRandomGuid]
    rw [hA, hH]
    rfl
  refine ⟨?_, ?_, ?_, ?_⟩
  · rw [hA]
    show ((b6 &&& 0x0f) ||| 0x40) >>> 4 = 4
    exact or64_shr _ (masked6_lt b6)
  · rw [hA]
    show ((b8 &&& 0x3f) ||| 0x80) >>> 6 = 2
    exact or128_shr _ (masked8_lt b8)
  · rw [hG]
    show hexDigit (((b6 &&& 0x0f) ||| 0x40) / 16) = '4'
    exact hexDigit_or64 _ (masked6_lt b6)
  · rw [hG]
    show hexDigit (((b8 &&& 0x3f) ||| 0x80) / 16) ∈ (['8', '9', 'a', 'b'] : List Char)
    exact hexDigit_or128_mem _ (masked8_lt b8)

theorem jsFloor_eq_self_iff (q : Rat) :
    jsFloor (JSNum.num q) = JSNum.num q ↔ ∃ n : Int, q = (n : Rat) := by
  constructor
  · intro hq
    exact ⟨⌊q⌋, (JSNum.num.inj hq).symm⟩
  · rintro ⟨n, rfl⟩
    show JSNum.num (↑⌊(n : Rat)⌋ : Rat) = _
    rw [Int.floor_intCast]

theorem parseFloatSyntax_neg5 :
    parseFloatSyntax "-5" =
      { sgn := -1, infinity := false, valid := true, ip := 5, fp := 0, fpLen := 0, exp := 0 } := by
  decide

theorem jsParseFloat_neg5 : jsParseFloat "-5" = JSNum.num ((-5 : Int) : Rat) := by
  unfold jsParseFloat
  rw [parseFloatSyntax_neg5]
  have hpow : pow10 0 = 1 := by
    rw [show pow10 0 = (10 : Rat) ^ (0 : Nat) from rfl, pow_zero]
  norm_num [hpow]

/-- C2 counterexample: the input `"-5"` is accepted by `validateShotsInput`
(no message returned) although it does not parse as a positive integer, so
acceptance is not equivalent to being a positive integer. -/
theorem validateShotsInput_accepts_negative :
    validateShotsInput "-5" = none ∧ ¬ parsesAsPositiveInteger "-5" := by
  constructor
  · unfold validateShotsInput
    rw [jsParseFloat_neg5, if_neg]
    rintro (h1 | h2)
    · simp [jsIsNaN] at h1
    · exact h2 ((jsFloor_eq_self_iff _).mpr ⟨-5, rfl⟩)
  · rintro ⟨n, hn, heq⟩
    rw [jsParseFloat_neg5] at heq
    have h5 : ((-5 : Int) : Rat) = (n : Rat) := JSNum.num.inj heq
    have hn5 : n = -5 := by exact_mod_cast h5.symm
    rw [hn5] at hn
    exact absurd hn (by decide)

/-- C2 amended: `validateShotsInput` accepts an input string iff `parseFloat`
yields a value equal to its floor — that is, any integral value (positive,
zero, or negative) or one of the two infinities; positivity is not
required. -/
theorem validateShotsInput_accepts_iff_integral (s : String) :
    validateShotsInput s = none ↔
      (jsParseFloat s = JSNum.posInf ∨ jsParseFloat s = JSNum.negInf ∨
        ∃ n : Int, jsParseFloat s = JSNum.num (n : Rat)) := by
  unfold validateShotsInput
  cases h : jsParseFloat s with
  | nan => simp [jsIsNaN, jsFloor]
  | posInf => simp [jsIsNaN, jsFloor]
  | negInf => simp [jsIsNaN, jsFloor]
  | num q =>
    have hnan : jsIsNaN (JSNum.num q) = false := rfl
    by_cases hq : ∃ n : Int, q = (n : Rat)
    · have hfl : jsFloor (JSNum.num q) = JSNum.num q := (jsFloor_eq_self_iff q).mpr hq
      obtain ⟨n, rfl⟩ := hq
      constructor
      · intro _
        exact Or.inr (Or.inr ⟨n, rfl⟩)
      · intro _
        rw [if_neg]
        rintro (h1 | h2)
        · rw [hnan] at h1
          exact Bool.noConfusion h1
        · exact h2 hfl
    · have hfl : jsFloor (JSNum.num q) ≠ JSNum.num q := fun hc =>
        hq ((jsFloor_eq_self_iff q).mp hc)
      rw [if_pos (Or.inr hfl)]
      constructor
      · intro hcon
        exact Option.noConfusion hcon
      · rintro (hc | hc | ⟨n, hc⟩)
        · exact JSNum.noConfusion hc
        · exact JSNum.noConfusion hc
        · exact absurd (JSNum.num.inj hc) fun hqq => hq ⟨n, hqq⟩

theorem length_filter_not_eq_sub {α : Type} (p : α → Bool) (l : List α) :
    (l.filter (fun a => !(p a))).length = l.length - (l.filter p).length := by
  induction l with
  | nil => rfl
  | cons a l ih =>
    have hle := List.length_filter_le p l
    by_cases h : p a <;> simp [List.filter_cons, h, ih] <;> omega

theorem queryWorkspace_providers_eq (ep tp : String → Bool)
    (ws : WorkspaceConnection) (ps : ProviderStatusList) (jobs : JobList) :
    (queryWorkspace ep tp ws ps jobs).providers =
      (ps.value.map (fun provider =>
        { providerId := provider.id,
          currentAvailability := provider.currentAvailability,
          targets := provider.targets.filter
            (fun target => !(tp target.id)) : Provider })).filter
        (fun provider => !(ep provider.providerId)) := by
  unfold queryWorkspace
  split <;> rfl

/-- C4: after a refresh, if the raw provider-status response has `N`
providers of which `M` match the provider exclusion predicate, the resulting
`providers` sequence has exactly `N - M` entries, no remaining entry's
`providerId` satisfies the exclusion predicate, and no surviving provider
retains a target matching the target exclusion predicate (targets were
filtered before providers). -/
theorem queryWorkspace_provider_filtering (ep tp : String → Bool)
    (ws : WorkspaceConnection) (ps : ProviderStatusList) (jobs : JobList) :
    (queryWorkspace ep tp ws ps jobs).providers.length
        = ps.value.length - (ps.value.filter (fun p => ep p.id)).length ∧
    (∀ p ∈ (queryWorkspace ep tp ws ps jobs).providers, ep p.providerId = false) ∧
    (∀ p ∈ (queryWorkspace ep tp ws ps jobs).providers,
        ∀ t ∈ p.targets, tp t.id = false) := by
  rw [queryWorkspace_providers_eq]
  refine ⟨?_, ?_, ?_⟩
  · rw [List.filter_map, List.length_map]
    have hc : ((fun provider : Provider => !ep provider.providerId) ∘
        fun provider : ProviderStatus =>
          ({ providerId := provider.id,
             currentAvailability := provider.currentAvailability,
             targets := provider.targets.filter
               (fun target => !(tp target.id)) } : Provider))
        = fun provider : ProviderStatus => !(ep provider.id) := rfl
    rw [hc, length_filter_not_eq_sub]
  · intro p hp
    have := (List.mem_filter.mp hp).2
    simpa using this
  · intro p hp t ht
    obtain ⟨raw, _, hraw⟩ := List.mem_map.mp (List.mem_filter.mp hp).1
    rw [← hraw] at ht
    have := (List.mem_filter.mp ht).2
    simpa using this

/-- C4 witness: the filtering behaviour evaluated at a concrete
provider-status response with one excluded and one surviving provider. -/
theorem queryWorkspace_provider_filtering_witness :
    (queryWorkspace excludeBadProvider excludeBadTarget wsFixture psFixture
        jobsEmpty).providers.length
      = psFixture.value.length
        - (psFixture.value.filter (fun p => excludeBadProvider p.id)).length ∧
    (∀ p ∈ (queryWorkspace excludeBadProvider excludeBadTarget wsFixture psFixture
        jobsEmpty).providers, excludeBadProvider p.providerId = false) ∧
    (∀ p ∈ (queryWorkspace excludeBadProvider excludeBadTarget wsFixture psFixture
        jobsEmpty).providers, ∀ t ∈ p.targets, excludeBadTarget t.id = false) :=
  queryWorkspace_provider_filtering excludeBadProvider excludeBadTarget wsFixture
    psFixture jobsEmpty

theorem job_copy_eq (j : Job) :
    ({ id := j.id, name := j.name, status := j.status,
       creationTime := j.creationTime } : Job) = j := rfl

theorem queryWorkspace_jobs_eq (ep tp : String → Bool)
    (ws : WorkspaceConnection) (ps : ProviderStatusList) (jobs : JobList)
    (hne : jobs.value ≠ []) :
    (queryWorkspace ep tp ws ps jobs).jobs = sortJobsByCreationTimeDesc jobs.value := by
  unfold queryWorkspace
  rw [if_neg (fun h => hne (List.length_eq_zero.mp h))]
  show (sortJobsByCreationTimeDesc jobs.value).map _ = _
  have hmap : (fun job =>
      ({ id := job.id, name := job.name, status := job.status,
         creationTime := job.creationTime } : Job)) = id := funext job_copy_eq
  rw [hmap]
  exact List.map_id _

/-- C5: for a non-empty job list with pairwise-distinct creation times, the
refresh leaves `connection.jobs` equal to that list sorted strictly
descending by `creationTime` (a permutation of the response that is strictly
descending). -/
theorem queryWorkspace_jobs_sorted_desc (ep tp : String → Bool)
    (ws : WorkspaceConnection) (ps : ProviderStatusList) (jobs : JobList)
    (hne : jobs.value ≠ [])
    (hdist : (jobs.value.map Job.creationTime).Pairwise (fun a b => a ≠ b)) :
    (queryWorkspace ep tp ws ps jobs).jobs.Pairwise
        (fun a b => b.creationTime < a.creationTime) ∧
    (queryWorkspace ep tp ws ps jobs).jobs.Perm jobs.value := by
  rw [queryWorkspace_jobs_eq ep tp ws ps jobs hne]
  have hperm : (sortJobsByCreationTimeDesc jobs.value).Perm jobs.value :=
    List.perm_insertionSort jobBefore jobs.value
  refine ⟨?_, hperm⟩
  have hsorted : (sortJobsByCreationTimeDesc jobs.value).Pairwise jobBefore :=
    List.sorted_insertionSort jobBefore jobs.value
  have hdist' : jobs.value.Pairwise (fun a b => a.creationTime ≠ b.creationTime) :=
    (List.pairwise_map).mp hdist
  have hdistSorted : (sortJobsByCreationTimeDesc jobs.value).Pairwise
      (fun a b => a.creationTime ≠ b.creationTime) :=
    hdist'.perm hperm.symm (fun h => h.symm)
  exact (hsorted.and hdistSorted).imp (fun h =>
    lt_of_le_of_ne (not_lt.mp h.1) (fun hc => h.2 hc.symm))

/-- C5 witness: the sortedness property applied to a concrete two-element
job response arriving out of order. -/
theorem queryWorkspace_jobs_sorted_desc_witness :
    (jobsAB.value ≠ [] ∧
      (jobsAB.value.map Job.creationTime).Pairwise (fun a b => a ≠ b)) ∧
    ((queryWorkspace excludeBadProvider excludeBadTarget wsFixture psEmpty
        jobsAB).jobs.Pairwise (fun a b => b.creationTime < a.creationTime) ∧
      (queryWorkspace excludeBadProvider excludeBadTarget wsFixture psEmpty
        jobsAB).jobs.Perm jobsAB.value) :=
  ⟨⟨by simp [jobsAB], by simp [jobsAB, jobA, jobB]⟩,
    queryWorkspace_jobs_sorted_desc excludeBadProvider excludeBadTarget wsFixture
      psEmpty jobsAB (by simp [jobsAB]) (by simp [jobsAB, jobA, jobB])⟩

/-- C6: the refresh mutates only the `providers` and `jobs` fields — `id`,
`name`, `endpointUri` and `tenantId` are unchanged — and when the job query
returns zero jobs the existing `jobs` field is left untouched. -/
theorem queryWorkspace_frame (ep tp : String → Bool)
    (ws : WorkspaceConnection) (ps : ProviderStatusList) (jobs : JobList) :
    (queryWorkspace ep tp ws ps jobs).id = ws.id ∧
    (queryWorkspace ep tp ws ps jobs).name = ws.name ∧
    (queryWorkspace ep tp ws ps jobs).endpointUri = ws.endpointUri ∧
    (queryWorkspace ep tp ws ps jobs).tenantId = ws.tenantId ∧
    (jobs.value = [] → (queryWorkspace ep tp ws ps jobs).jobs = ws.jobs) := by
  refine ⟨?_, ?_, ?_, ?_, ?_⟩
  · unfold queryWorkspace
    split <;> rfl
  · unfold queryWorkspace
    split <;> rfl
  · unfold queryWorkspace
    split <;> rfl
  · unfold queryWorkspace
    split <;> rfl
  · intro h
    unfold queryWorkspace
    rw [if_pos (by rw [h]; rfl)]

/-- C6 witness: the frame property applied at a concrete refresh with an
empty job response. -/
theorem queryWorkspace_frame_witness :
    (queryWorkspace excludeBadProvider excludeBadTarget wsWithJob psEmpty
        jobsEmpty).id = wsWithJob.id ∧
    (queryWorkspace excludeBadProvider excludeBadTarget wsWithJob psEmpty
        jobsEmpty).name = wsWithJob.name ∧
    (queryWorkspace excludeBadProvider excludeBadTarget wsWithJob psEmpty
        jobsEmpty).endpointUri = wsWithJob.endpointUri ∧
    (queryWorkspace excludeBadProvider excludeBadTarget wsWithJob psEmpty
        jobsEmpty).tenantId = wsWithJob.tenantId ∧
    (jobsEmpty.value = [] →
      (queryWorkspace excludeBadProvider excludeBadTarget wsWithJob psEmpty
        jobsEmpty).jobs = wsWithJob.jobs) :=
  queryWorkspace_frame excludeBadProvider excludeBadTarget wsWithJob psEmpty jobsEmpty

theorem stripLit_append (p t : List Char) : stripLit p (p ++ t) = some t := by
  induction p with
  | nil => rfl
  | cons c cs ih => simp [stripLit, ih]

theorem takeWhile_all {p : Char → Bool} : ∀ {l : List Char},
    (∀ c ∈ l, p c = true) → l.takeWhile p = l
  | [], _ => rfl
  | c :: cs, h => by
    have hc : p c = true := h c (List.mem_cons_self c cs)
    simp only [List.takeWhile_cons, hc, if_true]
    rw [takeWhile_all (fun x hx => h x (List.mem_cons_of_mem c hx))]

theorem takeWhile_middle {p : Char → Bool} (stop : Char) (t : List Char)
    (hs : p stop = false) : ∀ (l : List Char), (∀ c ∈ l, p c = true) →
    (l ++ stop :: t).takeWhile p = l ∧ (l ++ stop :: t).dropWhile p = stop :: t
  | [], _ => by simp [List.takeWhile_cons, List.dropWhile_cons, hs]
  | c :: cs, h => by
    have hc : p c = true := h c (List.mem_cons_self c cs)
    have ih := takeWhile_middle stop t hs cs (fun x hx => h x (List.mem_cons_of_mem c hx))
    simp only [List.cons_append, List.takeWhile_cons, List.dropWhile_cons, hc, if_true]
    exact ⟨by rw [ih.1], by rw [ih.2]⟩

theorem matchIdAt_canonical (S G rest : List Char)
    (hS : S ≠ []) (hS' : ∀ c ∈ S, (c == '/') = false)
    (hG : G ≠ []) (hG' : ∀ c ∈ G, (c == '/') = false)
    (hrest : rest = [] ∨ ∃ r, rest = '/' :: r) :
    matchIdAt ("/subscriptions/".data ++
      (S ++ ("/resourceGroups/".data ++ (G ++ rest)))) = some (S, G) := by
  have hpS : ∀ c ∈ S, (fun c => !(c == '/')) c = true := by
    intro c hc
    simp [hS' c hc]
  have hpG : ∀ c ∈ G, (fun c => !(c == '/')) c = true := by
    intro c hc
    simp [hG' c hc]
  have hstop : (fun c => !(c == '/')) '/' = false := rfl
  have hsplit : ("/resourceGroups/" : String).data
      = '/' :: ("resourceGroups/" : String).data := rfl
  have hSne : S.isEmpty = false := by
    cases S with
    | nil => exact absurd rfl hS
    | cons a l => rfl
  have hGne : G.isEmpty = false := by
    cases G with
    | nil => exact absurd rfl hG
    | cons a l => rfl
  unfold matchIdAt
  rw [stripLit_append]
  dsimp only
  rw [List.cons_append]
  have h1 := takeWhile_middle '/'
    (['r', 'e', 's', 'o', 'u', 'r', 'c', 'e', 'G', 'r', 'o', 'u', 'p', 's', '/']
      ++ (G ++ rest)) hstop S hpS
  rw [h1.1, h1.2, hSne, if_neg Bool.false_ne_true]
  rw [← List.cons_append, stripLit_append]
  dsimp only
  rcases hrest with hrest | ⟨r, hrest⟩
  · subst hrest
    rw [List.append_nil, takeWhile_all hpG, hGne, if_neg Bool.false_ne_true]
  · subst hrest
    have h2 := takeWhile_middle '/' r hstop G hpG
    rw [h2.1, hGne, if_neg Bool.false_ne_true]

theorem matchLocAt_canonical (region rest : List Char)
    (hr : region ≠ []) (hr' : ∀ c ∈ region, (c == '.') = false) :
    matchLocAt ("https://".data ++ (region ++ '.' :: rest)) = some region := by
  have hpR : ∀ c ∈ region, (fun c => !(c == '.')) c = true := by
    intro c hc
    simp [hr' c hc]
  have hstop : (fun c => !(c == '.')) '.' = false := rfl
  have hRne : region.isEmpty = false := by
    cases region with
    | nil => exact absurd rfl hr
    | cons a l => rfl
  unfold matchLocAt
  rw [stripLit_append]
  dsimp only
  have h1 := takeWhile_middle '.' rest hstop region hpR
  rw [h1.1, h1.2, hRne, if_neg Bool.false_ne_true]
  rfl

theorem searchIdMatch_canonical (S G rest : List Char)
    (hS : S ≠ []) (hS' : ∀ c ∈ S, (c == '/') = false)
    (hG : G ≠ []) (hG' : ∀ c ∈ G, (c == '/') = false)
    (hrest : rest = [] ∨ ∃ r, rest = '/' :: r) :
    searchIdMatch ("/subscriptions/".data ++
      (S ++ ("/resourceGroups/".data ++ (G ++ rest)))) = some (S, G) := by
  have hm := matchIdAt_canonical S G rest hS hS' hG hG' hrest
  have hcons : ("/subscriptions/" : String).data ++
      (S ++ (("/resourceGroups/" : String).data ++ (G ++ rest)))
      = '/' :: (("subscriptions/" : String).data ++
          (S ++ (("/resourceGroups/" : String).data ++ (G ++ rest)))) := rfl
  rw [hcons] at hm ⊢
  simp only [searchIdMatch]
  rw [hm]

theorem searchLocMatch_canonical (region rest : List Char)
    (hr : region ≠ []) (hr' : ∀ c ∈ region, (c == '.') = false) :
    searchLocMatch ("https://".data ++ (region ++ '.' :: rest)) = some region := by
  have hm := matchLocAt_canonical region rest hr hr'
  have hcons : ("https://" : String).data ++ (region ++ '.' :: rest)
      = 'h' :: (("ttps://" : String).data ++ (region ++ '.' :: rest)) := rfl
  rw [hcons] at hm ⊢
  simp only [searchLocMatch]
  rw [hm]

theorem jsReplaceFirst_prefix (pat rep t : List Char) (hp : pat ≠ []) :
    jsReplaceFirst pat rep (pat ++ t) = rep ++ t := by
  cases pat with
  | nil => exact absurd rfl hp
  | cons c cs =>
    rw [List.cons_append]
    simp only [jsReplaceFirst]
    rw [← List.cons_append, stripLit_append]

theorem fixEndpointUri_canonical (name region host : String) :
    fixEndpointUri name (some ("https://" ++ name ++ "." ++ (region ++ "." ++ host)))
      = "https://" ++ (region ++ "." ++ host) := by
  unfold fixEndpointUri
  dsimp only
  have hdata : ("https://" ++ name ++ "." ++ (region ++ "." ++ host)).data
      = ("https://" ++ name ++ "." : String).data ++ (region ++ "." ++ host).data :=
    String.data_append _ _
  have hne : ("https://" ++ name ++ "." : String).data ≠ [] := by
    rw [show ("https://" ++ name ++ "." : String).data
        = ("https://" ++ name : String).data ++ ['.'] from String.data_append _ _]
    simp
  rw [hdata, jsReplaceFirst_prefix _ _ _ hne, ← String.data_append]

theorem mk_data_eq (s : String) : String.mk s.data = s := rfl

/-- C3: for a workspace whose id is
`/subscriptions/S/resourceGroups/G<rest>` (with `S`, `G` nonempty and
slash-free, `<rest>` empty or starting with `/`) and whose raw endpoint is
`https://<name>.<region>.<host>` (with `region` nonempty and dot-free), the
endpoint normalization of `queryWorkspaces` yields
`https://<region>.<host>`, and the extractions of
`getPythonCodeForWorkspace` yield subscription `S`, resource group `G` and
location `region`. -/
theorem getPythonCode_derived_values (S G rest name region host : String)
    (hS : S.data ≠ []) (hS' : ∀ c ∈ S.data, (c == '/') = false)
    (hG : G.data ≠ []) (hG' : ∀ c ∈ G.data, (c == '/') = false)
    (hrest : rest.data = [] ∨ ∃ r, rest.data = '/' :: r)
    (hreg : region.data ≠ []) (hreg' : ∀ c ∈ region.data, (c == '.') = false) :
    searchIdMatch ("/subscriptions/" ++ S ++ "/resourceGroups/" ++ G ++ rest).data
        = some (S.data, G.data) ∧
    fixEndpointUri name (some ("https://" ++ name ++ "." ++ (region ++ "." ++ host)))
        = "https://" ++ (region ++ "." ++ host) ∧
    searchLocMatch ("https://" ++ (region ++ "." ++ host)).data = some region.data ∧
    getPythonCodeForWorkspaceVars
        { id := "/subscriptions/" ++ S ++ "/resourceGroups/" ++ G ++ rest,
          name := name,
          endpointUri := fixEndpointUri name
            (some ("https://" ++ name ++ "." ++ (region ++ "." ++ host))),
          tenantId := "", providers := [], jobs := [] }
        = some (S, G, region) := by
  have hid : ("/subscriptions/" ++ S ++ "/resourceGroups/" ++ G ++ rest).data
      = ("/subscriptions/" : String).data
          ++ (S.data ++ (("/resourceGroups/" : String).data ++ (G.data ++ rest.data))) := by
    simp only [String.data_append, List.append_assoc]
  have h1 : searchIdMatch
      ("/subscriptions/" ++ S ++ "/resourceGroups/" ++ G ++ rest).data
      = some (S.data, G.data) := by
    rw [hid]
    exact searchIdMatch_canonical S.data G.data rest.data hS hS' hG hG' hrest
  have h2 := fixEndpointUri_canonical name region host
  have hep : ("https://" ++ (region ++ "." ++ host)).data
      = ("https://" : String).data ++ (region.data ++ '.' :: host.data) := by
    simp only [String.data_append, List.append_assoc]
    rfl
  have h3 : searchLocMatch ("https://" ++ (region ++ "." ++ host)).data
      = some region.data := by
    rw [hep]
    exact searchLocMatch_canonical region.data host.data hreg hreg'
  refine ⟨h1, h2, h3, ?_⟩
  unfold getPythonCodeForWorkspaceVars
  dsimp only
  rw [h2, h1, h3]

/-- C3 witness: the derived values at a concrete workspace id and
endpoint. -/
theorem getPythonCode_derived_values_witness :
    (("0000-1111" : String).data ≠ [] ∧
      (∀ c ∈ ("0000-1111" : String).data, (c == '/') = false) ∧
      ("quantumResourcegroup" : String).data ≠ [] ∧
      (∀ c ∈ ("quantumResourcegroup" : String).data, (c == '/') = false) ∧
      (("/providers/Microsoft.Quantum/Workspaces/ws1" : String).data = [] ∨
        ∃ r, ("/providers/Microsoft.Quantum/Workspaces/ws1" : String).data = '/' :: r) ∧
      ("westus" : String).data ≠ [] ∧
      (∀ c ∈ ("westus" : String).data, (c == '.') = false)) ∧
    (searchIdMatch ("/subscriptions/" ++ "0000-1111" ++ "/resourceGroups/" ++
          "quantumResourcegroup" ++ "/providers/Microsoft.Quantum/Workspaces/ws1").data
        = some (("0000-1111" : String).data, ("quantumResourcegroup" : String).data) ∧
      fixEndpointUri "ws1" (some ("https://" ++ "ws1" ++ "." ++
          ("westus" ++ "." ++ "quantum.azure.com")))
        = "https://" ++ ("westus" ++ "." ++ "quantum.azure.com") ∧
      searchLocMatch ("https://" ++ ("westus" ++ "." ++ "quantum.azure.com")).data
        = some ("westus" : String).data ∧
      getPythonCodeForWorkspaceVars
        { id := "/subscriptions/" ++ "0000-1111" ++ "/resourceGroups/" ++
            "quantumResourcegroup" ++ "/providers/Microsoft.Quantum/Workspaces/ws1",
          name := "ws1",
          endpointUri := fixEndpointUri "ws1" (some ("https://" ++ "ws1" ++ "." ++
            ("westus" ++ "." ++ "quantum.azure.com"))),
          tenantId := "", providers := [], jobs := [] }
        = some ("0000-1111", "quantumResourcegroup", "westus")) :=
  ⟨⟨by decide, by decide, by decide, by decide,
    Or.inr ⟨("providers/Microsoft.Quantum/Workspaces/ws1" : String).data, rfl⟩,
    by decide, by decide⟩,
    getPythonCode_derived_values "0000-1111" "quantumResourcegroup"
      "/providers/Microsoft.Quantum/Workspaces/ws1" "ws1" "westus" "quantum.azure.com"
      (by decide) (by decide) (by decide) (by decide)
      (Or.inr ⟨("providers/Microsoft.Quantum/Workspaces/ws1" : String).data, rfl⟩)
      (by decide) (by decide)⟩

theorem pickIfMany_single {α : Type} (first : α) (pick : List α → Option α) :
    pickIfMany first [] pick = (some first, 0) := rfl

theorem pickIfMany_mem {α : Type} (first : α) (rest : List α)
    (pick : List α → Option α)
    (hpick : ∀ x, pick (first :: rest) = some x → x ∈ first :: rest)
    (c : α) (n : Nat) (h : pickIfMany first rest pick = (some c, n)) :
    c ∈ first :: rest := by
  unfold pickIfMany at h
  by_cases hr : rest.isEmpty
  · rw [if_pos hr] at h
    injection h with h1 h2
    injection h1 with h1
    exact h1 ▸ List.mem_cons_self first rest
  · rw [if_neg hr] at h
    cases hp : pick (first :: rest) with
    | none =>
      rw [hp] at h
      exact absurd h (by simp)
    | some x =>
      rw [hp] at h
      injection h with h1 h2
      injection h1 with h1
      exact h1 ▸ hpick x hp

theorem queryWorkspacesAfterAuth_single (env : DiscoveryEnv) (tid : String)
    (s : Subscription) (w : WorkspaceResponse)
    (hs : env.subs.value = [s]) (hw : env.workspaces.value = [w]) :
    queryWorkspacesAfterAuth env tid 0 = (some (buildConnection tid w), 0) := by
  unfold queryWorkspacesAfterAuth
  rw [hs, hw]
  rfl

theorem queryWorkspacesAfterAuth_shape (env : DiscoveryEnv) (tid : String)
    (n1 : Nat) (hpick : ∀ l x, env.pickWorkspace l = some x → x ∈ l)
    (conn : WorkspaceConnection)
    (h : (queryWorkspacesAfterAuth env tid n1).1 = some conn) :
    ∃ w ∈ env.workspaces.value, conn = buildConnection tid w := by
  unfold queryWorkspacesAfterAuth at h
  cases hsv : env.subs.value with
  | nil =>
    rw [hsv] at h
    simp at h
  | cons s0 ss =>
    rw [hsv] at h
    dsimp only at h
    cases hps : pickIfMany s0 ss env.pickSubscription with
    | mk o2 n2 =>
      rw [hps] at h
      cases o2 with
      | none => simp at h
      | some sc =>
        dsimp only at h
        cases hwv : env.workspaces.value with
        | nil =>
          rw [hwv] at h
          simp at h
        | cons w0 wss =>
          rw [hwv] at h
          dsimp only at h
          cases hpw : pickIfMany w0 wss env.pickWorkspace with
          | mk o3 n3 =>
            rw [hpw] at h
            cases o3 with
            | none => simp at h
            | some wk =>
              dsimp only at h
              refine ⟨wk, ?_, (Option.some.inj h).symm⟩
              exact pickIfMany_mem w0 wss env.pickWorkspace
                (fun x hx => hpick _ x hx) wk n3 hpw

/-- C7: with exactly one tenant, one subscription and one workspace, the
discovery never invokes the quick-pick capability (zero picker invocations)
and returns the connection built from the single workspace and the single
tenant automatically. -/
theorem queryWorkspaces_single_no_picks (env : DiscoveryEnv)
    (t : Tenant) (s : Subscription) (w : WorkspaceResponse)
    (ht : env.tenants.value = [t]) (hs : env.subs.value = [s])
    (hw : env.workspaces.value = [w]) :
    (queryWorkspaces env).2 = 0 ∧
    (∀ conn, (queryWorkspaces env).1 = some conn →
      conn = buildConnection t.tenantId w) := by
  have htail := queryWorkspacesAfterAuth_single env t.tenantId s w hs hw
  unfold queryWorkspaces
  rw [ht]
  cases hfa : env.firstAuth with
  | none => exact ⟨rfl, fun conn hc => absurd hc (by simp)⟩
  | some fa =>
    dsimp only
    rw [pickIfMany_single]
    dsimp only
    by_cases hcond : fa.account.type = "aad" ∧
        jsStartsWith t.tenantId fa.account.id = true
    · rw [if_pos hcond]
      dsimp only
      rw [htail]
      exact ⟨rfl, fun conn hc => (Option.some.inj hc).symm⟩
    · rw [if_neg hcond]
      cases hsa : env.secondAuth with
      | none => exact ⟨rfl, fun conn hc => absurd hc (by simp)⟩
      | some sa =>
        dsimp only
        rw [htail]
        exact ⟨rfl, fun conn hc => (Option.some.inj hc).symm⟩

/-- C7 witness: the no-pick property at the concrete singleton
environment. -/
theorem queryWorkspaces_single_no_picks_witness :
    (envSingle.tenants.value = [tenant1] ∧ envSingle.subs.value = [sub1] ∧
      envSingle.workspaces.value = [wsResp1]) ∧
    ((queryWorkspaces envSingle).2 = 0 ∧
      (∀ conn, (queryWorkspaces envSingle).1 = some conn →
        conn = buildConnection tenant1.tenantId wsResp1)) :=
  ⟨⟨rfl, rfl, rfl⟩,
    queryWorkspaces_single_no_picks envSingle tenant1 sub1 wsResp1 rfl rfl rfl⟩

/-- C10: whenever discovery returns a connection, that connection's
providers are exactly the raw providers of one of the offered workspaces,
mapped one-to-one (no exclusion filtering: the length is preserved and the
`providerId` kept verbatim), with `currentAvailability` equal to
`"Available"` precisely when the raw `provisioningState` is `"Succeeded"`
and `"Unavailable"` otherwise. -/
theorem queryWorkspaces_discovery_providers (env : DiscoveryEnv)
    (hpick : ∀ l x, env.pickWorkspace l = some x → x ∈ l)
    (conn : WorkspaceConnection)
    (h : (queryWorkspaces env).1 = some conn) :
    (∃ w ∈ env.workspaces.value,
        conn.providers = w.properties.providers.map mkDiscoveryProvider ∧
        conn.providers.length = w.properties.providers.length) ∧
    (∀ raw : RawProvider,
        (mkDiscoveryProvider raw).providerId = raw.providerId ∧
        ((mkDiscoveryProvider raw).currentAvailability = "Available" ↔
          raw.provisioningState = "Succeeded") ∧
        ((mkDiscoveryProvider raw).currentAvailability = "Unavailable" ↔
          ¬ raw.provisioningState = "Succeeded")) := by
  constructor
  · have hshape : ∃ tid w, w ∈ env.workspaces.value ∧ conn = buildConnection tid w := by
      unfold queryWorkspaces at h
      cases hfa : env.firstAuth with
      | none =>
        rw [hfa] at h
        simp at h
      | some fa =>
        rw [hfa] at h
        dsimp only at h
        cases htv : env.tenants.value with
        | nil =>
          rw [htv] at h
          simp at h
        | cons t0 ts =>
          rw [htv] at h
          dsimp only at h
          cases hpt : pickIfMany t0 ts env.pickTenant with
          | mk o1 n1 =>
            rw [hpt] at h
            cases o1 with
            | none => simp at h
            | some tc =>
              dsimp only at h
              by_cases hcond : fa.account.type = "aad" ∧
                  jsStartsWith tc.tenantId fa.account.id = true
              · rw [if_pos hcond] at h
                dsimp only at h
                obtain ⟨w, hw, hconn⟩ :=
                  queryWorkspacesAfterAuth_shape env tc.tenantId n1 hpick conn h
                exact ⟨tc.tenantId, w, hw, hconn⟩
              · rw [if_neg hcond] at h
                cases hsa : env.secondAuth with
                | none =>
                  rw [hsa] at h
                  simp at h
                | some sa =>
                  rw [hsa] at h
                  dsimp only at h
                  obtain ⟨w, hw, hconn⟩ :=
                    queryWorkspacesAfterAuth_shape env tc.tenantId n1 hpick conn h
                  exact ⟨tc.tenantId, w, hw, hconn⟩
    obtain ⟨tid, w, hw, hconn⟩ := hshape
    refine ⟨w, hw, ?_, ?_⟩
    · rw [hconn]
      rfl
    · rw [hconn]
      exact List.length_map _ _
  · intro raw
    refine ⟨rfl, ?_, ?_⟩
    · simp only [mkDiscoveryProvider]
      by_cases hp : raw.provisioningState = "Succeeded"
      · rw [if_pos hp]
        exact ⟨fun _ => hp, fun _ => rfl⟩
      · rw [if_neg hp]
        exact ⟨fun habs => absurd habs (by decide), fun hc => absurd hc hp⟩
    · simp only [mkDiscoveryProvider]
      by_cases hp : raw.provisioningState = "Succeeded"
      · rw [if_pos hp]
        exact ⟨fun habs => absurd habs (by decide), fun hc => absurd hp hc⟩
      · rw [if_neg hp]
        exact ⟨fun _ => hp, fun _ => rfl⟩

/-- C10 witness: the discovery provider mapping at the concrete singleton
environment, whose one workspace carries one succeeded and one non-succeeded
provider. -/
theorem queryWorkspaces_discovery_providers_witness :
    ((∀ l x, envSingle.pickWorkspace l = some x → x ∈ l) ∧
      (queryWorkspaces envSingle).1 = some (buildConnection "tid1" wsResp1)) ∧
    ((∃ w ∈ envSingle.workspaces.value,
        (buildConnection "tid1" wsResp1).providers
          = w.properties.providers.map mkDiscoveryProvider ∧
        (buildConnection "tid1" wsResp1).providers.length
          = w.properties.providers.length) ∧
      (∀ raw : RawProvider,
        (mkDiscoveryProvider raw).providerId = raw.providerId ∧
        ((mkDiscoveryProvider raw).currentAvailability = "Available" ↔
          raw.provisioningState = "Succeeded") ∧
        ((mkDiscoveryProvider raw).currentAvailability = "Unavailable" ↔
          ¬ raw.provisioningState = "Succeeded"))) := by
  have hp : ∀ l x, envSingle.pickWorkspace l = some x → x ∈ l :=
    fun l x hx => Option.noConfusion hx
  have hh : (queryWorkspaces envSingle).1 = some (buildConnection "tid1" wsResp1) := rfl
  exact ⟨⟨hp, hh⟩,
    queryWorkspaces_discovery_providers envSingle hp (buildConnection "tid1" wsResp1) hh⟩

/-- C1: cancelling both input prompts does not abort `submitJob`: at the
concrete cancelled environment the run still performs all four network
calls (SAS grant request, container creation, blob upload, job PUT), PUTs a
job with no name and 100 shots, and returns the job id — the
`numberOfShots === undefined` check is dead because of the preceding
`|| "100"`, and the job-name result is never checked. -/
theorem submitJob_cancelled_prompts_still_call_network :
    (submitJob envCancelled "prov" "tgt").1 = some "g" ∧
    ((submitJob envCancelled "prov" "tgt").2).length = 4 ∧
    NetworkCall.sasRequest "g" ∈ (submitJob envCancelled "prov" "tgt").2 ∧
    (jobPutPayloads ((submitJob envCancelled "prov" "tgt").2)).map
        (fun p => (p.name, p.count, p.shots)) = [(none, some 100, some 100)] :=
  ⟨rfl, rfl, by decide, by decide⟩

/-- C9: whenever the number-of-shots input box yields no value (`undefined`
or `""`, both falsy), `submitJob` proceeds rather than aborting: it returns
the generated id, performs the four network calls, and the PUT job payload
carries the integer 100 under both the `count` and the `shots` key. -/
theorem submitJob_falsy_shots_defaults_100 (env : SubmitEnv)
    (providerId target : String)
    (hfalsy : env.shotsBox = none ∨ env.shotsBox = some "") :
    (submitJob env providerId target).1 = some env.randomGuid ∧
    (submitJob env providerId target).2.length = 4 ∧
    (jobPutPayloads ((submitJob env providerId target).2)).map
        (fun p => (p.count, p.shots)) = [(some 100, some 100)] := by
  have hshots : jsOrDefault env.shotsBox "100" = some "100" := by
    rcases hfalsy with h | h <;> rw [h] <;> rfl
  unfold submitJob
  rw [hshots, if_neg (by simp)]
  exact ⟨rfl, rfl, rfl⟩

/-- C9 witness: the default-to-100 behaviour at the concrete environment
where only the shots prompt was dismissed. -/
theorem submitJob_falsy_shots_defaults_100_witness :
    (envShotsEsc.shotsBox = none ∨ envShotsEsc.shotsBox = some "") ∧
    ((submitJob envShotsEsc "pid" "tgt").1 = some envShotsEsc.randomGuid ∧
      (submitJob envShotsEsc "pid" "tgt").2.length = 4 ∧
      (jobPutPayloads ((submitJob envShotsEsc "pid" "tgt").2)).map
        (fun p => (p.count, p.shots)) = [(some 100, some 100)]) :=
  ⟨Or.inl rfl, submitJob_falsy_shots_defaults_100 envShotsEsc "pid" "tgt" (Or.inl rfl)⟩

end WorkspaceActions
